import Mathlib

/-!
Verification of the cloud_architect_mcp MCP server (TypeScript sources:
src/cloud_arch.ts and the two unnamed variants part_000 / part_001).

The request/response values exchanged by the server are JSON documents, so the
embedding is built on an inductive JSON value type.  JavaScript runtime values
that may be `undefined` are modelled as `Option Json` (`none` = undefined;
`Json.null` is the JSON literal null, which behaves differently).  Property
reads that throw a TypeError in JavaScript are modelled in the `Except String`
monad, mirroring the try/catch boundaries of the source.  JSON numbers in this
system are integers (the tool schema declares them as integers), so `Json.num`
carries an `Int`.
-/

inductive Json where
  | null : Json
  | bool : Bool → Json
  | num : Int → Json
  | str : String → Json
  | arr : List Json → Json
  | obj : List (String × Json) → Json

mutual

/-- Structural (deep) equality on JSON values; this is what deep equality of
the round-tripped `state` sub-object means. -/
def Json.beq : Json → Json → Bool
  | .null, .null => true
  | .bool a, .bool b => a == b
  | .num a, .num b => a == b
  | .str a, .str b => a == b
  | .arr a, .arr b => Json.beqList a b
  | .obj a, .obj b => Json.beqFields a b
  | _, _ => false

def Json.beqList : List Json → List Json → Bool
  | [], [] => true
  | a :: as, b :: bs => Json.beq a b && Json.beqList as bs
  | _, _ => false

def Json.beqFields : List (String × Json) → List (String × Json) → Bool
  | [], [] => true
  | (k, v) :: as, (k2, v2) :: bs => k == k2 && Json.beq v v2 && Json.beqFields as bs
  | _, _ => false

end

instance : BEq Json := ⟨Json.beq⟩

/-- First field with the given key (JavaScript objects have unique keys, so
this is plain property lookup). -/
def lookupField : List (String × Json) → String → Option Json
  | [], _ => none
  | (k2, v) :: rest, k => if k2 = k then some v else lookupField rest k

/-- Property lookup on a JSON value; non-objects have no (own) named
properties of interest here. -/
def Json.lookup : Json → String → Option Json
  | .obj fs, k => lookupField fs k
  | _, _ => none

/-- Lookup through a possibly-undefined value, used only to state claims
(never throws). -/
def jsLookup (o : Option Json) (k : String) : Option Json :=
  match o with
  | some j => j.lookup k
  | none => none

/-- JavaScript truthiness of a possibly-undefined JSON value (NaN does not
arise: numbers are integers). -/
def truthy : Option Json → Bool
  | none => false
  | some .null => false
  | some (.bool b) => b
  | some (.num n) => n != 0
  | some (.str s) => s != ""
  | some (.arr _) => true
  | some (.obj _) => true

/-- The JavaScript `a || b` operator on possibly-undefined values. -/
def jsOr (a b : Option Json) : Option Json :=
  if truthy a then a else b

/-- Own-property read on a value already known to be non-nullish: never
throws, absent properties give undefined. -/
def propOf (v : Json) (k : String) : Option Json :=
  match v with
  | .obj fs => lookupField fs k
  | _ => none

/-- JavaScript property read `o.k`: throws a TypeError when `o` is undefined
or null. -/
def getProp (o : Option Json) (k : String) : Except String (Option Json) :=
  match o with
  | none => .error ("Cannot read properties of undefined (reading " ++ k ++ ")")
  | some .null => .error ("Cannot read properties of null (reading " ++ k ++ ")")
  | some v => .ok (propOf v k)

/-- The optional-chain step `o?.k`: short-circuits to undefined on nullish
`o`, otherwise a plain property read. -/
def optChainProp (o : Option Json) (k : String) : Option Json :=
  match o with
  | none => none
  | some .null => none
  | some v => propOf v k

/-- JavaScript `.length` read: throws on nullish receivers; arrays and
strings have their length, plain objects may carry a length property,
boxed primitives have none. -/
def getLength (o : Option Json) : Except String (Option Json) :=
  match o with
  | none => .error "Cannot read properties of undefined (reading length)"
  | some .null => .error "Cannot read properties of null (reading length)"
  | some (.arr xs) => .ok (some (.num xs.length))
  | some (.str s) => .ok (some (.num (s.length : Nat)))
  | some (.obj fs) => .ok (lookupField fs "length")
  | some _ => .ok none

/-- Is the string a canonical array-index key (used by the property ordering
of JavaScript objects)? -/
def arrayIndexKey (s : String) : Option Nat :=
  if s.length = 0 then none
  else if s.data.all Char.isDigit then
    if s.front = '0' ∧ s ≠ "0" then none
    else
      match s.toNat? with
      | some n => if n < 4294967295 then some n else none
      | none => none
  else none

def insertByIndex (p : Nat × String) : List (Nat × String) → List (Nat × String)
  | [] => [p]
  | q :: rest => if p.1 < q.1 then p :: q :: rest else q :: insertByIndex p rest

def sortByIndex : List (Nat × String) → List (Nat × String)
  | [] => []
  | p :: rest => insertByIndex p (sortByIndex rest)

/-- JavaScript own-key enumeration order: canonical array-index keys first in
ascending numeric order, then the remaining keys in insertion order. -/
def jsKeyOrder (keys : List String) : List String :=
  let indexed := keys.filterMap (fun k => (arrayIndexKey k).map (fun n => (n, k)))
  (sortByIndex indexed).map Prod.snd ++ keys.filter (fun k => arrayIndexKey k = none)

/-- `Object.keys(o)`: throws on nullish arguments (ToObject), enumerates own
keys otherwise; boxed primitives other than strings have none. -/
def objectKeys (o : Option Json) : Except String (List String) :=
  match o with
  | none => .error "Cannot convert undefined or null to object"
  | some .null => .error "Cannot convert undefined or null to object"
  | some (.obj fs) => .ok (jsKeyOrder (fs.map Prod.fst))
  | some (.arr xs) => .ok ((List.range xs.length).map (fun i => toString i))
  | some (.str s) => .ok ((List.range s.length).map (fun i => toString i))
  | some _ => .ok []

/-- The defined (non-undefined) properties of an object literal, in order. -/
def definedFields : List (String × Option Json) → List (String × Json)
  | [] => []
  | (_, none) :: rest => definedFields rest
  | (k, some v) :: rest => (k, v) :: definedFields rest

/-- Build the serialized form of a JavaScript object literal directly:
JSON.stringify drops properties whose value is undefined. -/
def jsObject (fields : List (String × Option Json)) : Json :=
  .obj (definedFields fields)

def hexDigit (n : Nat) : Char :=
  if n < 10 then Char.ofNat (48 + n) else Char.ofNat (87 + n)

/-- JSON string escaping as performed by JSON.stringify. -/
def escapeJsonChar (c : Char) : String :=
  if c = '"' then "\\\""
  else if c = '\\' then "\\\\"
  else if c = '\n' then "\\n"
  else if c = '\r' then "\\r"
  else if c = '\t' then "\\t"
  else if c = Char.ofNat 8 then "\\b"
  else if c = Char.ofNat 12 then "\\f"
  else if c.toNat < 32 then
    "\\u00" ++ String.mk [hexDigit (c.toNat / 16), hexDigit (c.toNat % 16)]
  else String.mk [c]

def quoteJson (s : String) : String :=
  "\"" ++ String.join (s.data.map escapeJsonChar) ++ "\""

mutual

/-- Serialization of a JSON value, as JSON.stringify produces it.  The
sources call JSON.stringify(x, null, 2); the 2-space indentation affects
only inter-token whitespace and is elided here. -/
def Json.stringify : Json → String
  | .null => "null"
  | .bool b => if b then "true" else "false"
  | .num n => toString n
  | .str s => quoteJson s
  | .arr xs => "[" ++ Json.stringifyArr xs ++ "]"
  | .obj fs => "\x7b" ++ Json.stringifyObj fs ++ "\x7d"

def Json.stringifyArr : List Json → String
  | [] => ""
  | [x] => Json.stringify x
  | x :: y :: rest => Json.stringify x ++ "," ++ Json.stringifyArr (y :: rest)

def Json.stringifyObj : List (String × Json) → String
  | [] => ""
  | [(k, v)] => quoteJson k ++ ":" ++ Json.stringify v
  | (k, v) :: p :: rest =>
    quoteJson k ++ ":" ++ Json.stringify v ++ "," ++ Json.stringifyObj (p :: rest)

end

mutual

/-- JavaScript ToString coercion of a JSON value (template literals, computed
property keys).  Integer numbers print in decimal; arrays join their
elements with commas (nullish elements print empty); plain objects print
as [object Object]. -/
def jsToString : Json → String
  | .null => "null"
  | .bool b => if b then "true" else "false"
  | .num n => toString n
  | .str s => s
  | .arr xs => jsToStringList xs
  | .obj _ => "[object Object]"

def jsToStringList : List Json → String
  | [] => ""
  | [Json.null] => ""
  | [x] => jsToString x
  | Json.null :: y :: rest => "," ++ jsToStringList (y :: rest)
  | x :: y :: rest => jsToString x ++ "," ++ jsToStringList (y :: rest)

end

def digitsVal : List Char → Nat
  | [] => 0
  | c :: rest => (c.toNat - 48) * 10 ^ rest.length + digitsVal rest

/-- The JavaScript Number(string) conversion on the string forms arising in
this system: the empty (or all-whitespace) string is 0, optionally signed
decimal digit runs have their value, anything else is NaN (`none`).
Fractional, exponent and radix-prefixed forms do not arise from the
integer-valued records modelled here. -/
def jsNumberOfString (s : String) : Option Int :=
  let t := s.trim
  if t = "" then some 0
  else if t.front = '-' then
    let rest := t.drop 1
    if rest ≠ "" ∧ rest.data.all Char.isDigit then some (-(digitsVal rest.data : Int)) else none
  else if t.front = '+' then
    let rest := t.drop 1
    if rest ≠ "" ∧ rest.data.all Char.isDigit then some (digitsVal rest.data : Int) else none
  else if t.data.all Char.isDigit then some (digitsVal t.data : Int)
  else none

/-- One block of a tool response: the sources emit blocks of type "text". -/
structure ContentItem where
  type : String
  text : String
deriving DecidableEq

/-- The uniform response wrapper.  A JavaScript return object that omits
isError leaves it falsy, so such envelopes carry isError = false here. -/
structure ResponseEnvelope where
  content : List ContentItem
  isError : Bool
deriving DecidableEq

/-- The structured error payload produced at every catch boundary of the
sources: JSON.stringify of an object with the failure message and a failed
status. -/
def errorText (msg : String) : String :=
  (Json.obj [("error", .str msg), ("status", .str "failed")]).stringify

/-- The error envelope returned when a handler body throws. -/
def errorEnvelope (msg : String) : ResponseEnvelope :=
  { content := [{ type := "text", text := errorText msg }], isError := true }

/-- The envelope answering a request for an unregistered tool name. -/
def unknownToolEnvelope (name : String) : ResponseEnvelope :=
  { content := [{ type := "text", text := "Unknown tool: " ++ name }], isError := true }

namespace CloudArch

/-- The object literal passed to JSON.stringify by the
design_azure_architecture handler of src/cloud_arch.ts (lines 419-441),
assembled from the already-evaluated sub-expressions in source order.
Properties whose value is undefined are dropped, as JSON.stringify does. -/
def mkPayload (displayText questionNumber totalQuestions nextQuestionNeeded : Option Json)
    (followUpKeys : List String) (questionHistoryLength : Option Json)
    (componentsCount requirementsCount constraintsCount designPatternsCount : Option Json)
    (completenessPercentage emptyTiers tierComponentCounts : Option Json)
    (state : Option Json) : Json :=
  jsObject [
    ("display_text", displayText),
    ("questionNumber", questionNumber),
    ("totalQuestions", totalQuestions),
    ("nextQuestionNeeded", nextQuestionNeeded),
    ("followUpQuestions", some (.arr (followUpKeys.map Json.str))),
    ("questionHistoryLength", questionHistoryLength),
    ("architectureStatus", some (jsObject [
      ("componentsCount", componentsCount),
      ("requirementsCount", requirementsCount),
      ("constraintsCount", constraintsCount),
      ("designPatternsCount", designPatternsCount),
      ("completenessPercentage", completenessPercentage),
      ("emptyTiers", emptyTiers),
      ("tierComponentCounts", tierComponentCounts)])),
    ("state", state)]

/-- The JSON.stringify argument of src/cloud_arch.ts lines 422-439,
evaluated property by property in source order from the input fields the
handler uses and the `state` value; any of the property reads on `state`
may throw.  The source reads `state.calculatedMetrics` three times through
optional chains; the reads have no side effects, so the value is read once
here and reused. -/
def payloadTail (question questionNumber totalQuestions nextQuestionNeeded state : Option Json) :
    Except String Json := do
  let display ← getProp state "display"
  let displayText := jsOr (optChainProp display "displayText") question
  let followUpObj ← getProp state "followUpQuestions"
  let followUpKeys ← objectKeys followUpObj
  let questionHistory ← getProp state "questionHistory"
  let questionHistoryLength ← getLength questionHistory
  let architectureComponents ← getProp state "architectureComponents"
  let componentsCount ← getLength architectureComponents
  let identifiedRequirements ← getProp state "identifiedRequirements"
  let requirementsCount ← getLength identifiedRequirements
  let technicalConstraints ← getProp state "technicalConstraints"
  let constraintsCount ← getLength technicalConstraints
  let designPatterns ← getProp state "designPatterns"
  let designPatternsCount ← getLength designPatterns
  let calculatedMetrics ← getProp state "calculatedMetrics"
  let completenessPercentage := jsOr (optChainProp calculatedMetrics "completenessPercentage") (some (.num 0))
  let emptyTiers := jsOr (optChainProp calculatedMetrics "emptyTiers") (some (.arr []))
  let tierComponentCounts := jsOr (optChainProp calculatedMetrics "tierComponentCounts") (some (.obj []))
  pure (mkPayload displayText questionNumber totalQuestions nextQuestionNeeded followUpKeys
    questionHistoryLength componentsCount requirementsCount constraintsCount designPatternsCount
    completenessPercentage emptyTiers tierComponentCounts state)

/-- The try-block of the design_azure_architecture branch of the
CallToolRequestSchema handler in src/cloud_arch.ts (lines 387-441).  The
recognized input fields are read first (the `input` object literal), then
`data.state`, then the JSON.stringify argument is evaluated (payloadTail);
any of these property reads may throw. -/
def handlerBody (data : Option Json) : Except String Json := do
  let question ← getProp data "question"
  let questionNumber ← getProp data "questionNumber"
  let totalQuestions ← getProp data "totalQuestions"
  let nextQuestionNeeded ← getProp data "nextQuestionNeeded"
  let _answer ← getProp data "answer"
  let _requirementCategory ← getProp data "requirementCategory"
  let _isFollowUp ← getProp data "isFollowUp"
  let _followsQuestionNumber ← getProp data "followsQuestionNumber"
  let _architectureSuggested ← getProp data "architectureSuggested"
  let _architectureComponent ← getProp data "architectureComponent"
  let _detailLevel ← getProp data "detailLevel"
  let _domainSpecific ← getProp data "domainSpecific"
  let _requirementIdentified ← getProp data "requirementIdentified"
  let _technicalConstraint ← getProp data "technicalConstraint"
  let _designPatternSuggested ← getProp data "designPatternSuggested"
  let _serviceDetails ← getProp data "serviceDetails"
  let _architectureTier ← getProp data "architectureTier"
  let state ← getProp data "state"
  payloadTail question questionNumber totalQuestions nextQuestionNeeded state

/-- The CallToolRequestSchema handler of src/cloud_arch.ts (lines 385-463):
dispatches on the tool name, wraps a normal handler completion in a response
envelope, converts any failure thrown inside the try-block into the
structured error envelope (the catch at lines 442-453), and answers every
other tool name with the unknown-tool envelope.  The function is total, so
no failure escapes to the transport layer. -/
def callToolHandler (name : String) (args : Option Json) : ResponseEnvelope :=
  if name = "design_azure_architecture" then
    match handlerBody args with
    | .ok payload => { content := [{ type := "text", text := payload.stringify }], isError := false }
    | .error msg => errorEnvelope msg
  else
    unknownToolEnvelope name

end CloudArch

namespace Variant000

/-- The try-block of the design_azure_architecture branch in
src/unnamed/part_000 (lines 268-301): the recognized input fields are read,
then `data.state`, then the responseObj literal is evaluated property by
property (`state.thought` and `state.suggestedHint` throw when state is
nullish); undefined-valued properties are dropped by JSON.stringify. -/
def handlerBody (data : Option Json) : Except String Json := do
  let question ← getProp data "question"
  let questionNumber ← getProp data "questionNumber"
  let totalQuestions ← getProp data "totalQuestions"
  let nextQuestionNeeded ← getProp data "nextQuestionNeeded"
  let _answer ← getProp data "answer"
  let _architectureComponent ← getProp data "architectureComponent"
  let _architectureTier ← getProp data "architectureTier"
  let state ← getProp data "state"
  let thought ← getProp state "thought"
  let suggestedHint ← getProp state "suggestedHint"
  pure (jsObject [
    ("display_text", question),
    ("display_thought", thought),
    ("display_hint", suggestedHint),
    ("questionNumber", questionNumber),
    ("totalQuestions", totalQuestions),
    ("nextQuestionNeeded", nextQuestionNeeded),
    ("state", state)])

/-- The CallToolRequestSchema handler of src/unnamed/part_000 (lines
267-322): same dispatch / catch / unknown-tool structure as the
src/cloud_arch.ts handler around its own try-block. -/
def callToolHandler (name : String) (args : Option Json) : ResponseEnvelope :=
  if name = "design_azure_architecture" then
    match handlerBody args with
    | .ok payload => { content := [{ type := "text", text := payload.stringify }], isError := false }
    | .error msg => errorEnvelope msg
  else
    unknownToolEnvelope name

end Variant000

/-!
The SSE session layer (identical in all three sources; line numbers from
src/cloud_arch.ts).  The lookup object `transports` maps session ids to
their SSEServerTransport; the transport value is opaque to the session
logic, so it is a type parameter here.  Session ids issued by the SDK are
UUID strings (never canonical array-index keys), so object key order is
plain insertion order and an association list models the object exactly.
-/

/-- `transports[transport.sessionId] = transport` (line 495): JavaScript
property assignment overwrites an existing key in place or appends a new
one. -/
def tableSet {τ : Type} : List (String × τ) → String → τ → List (String × τ)
  | [], k, v => [(k, v)]
  | (k2, v2) :: rest, k, v =>
    if k2 = k then (k, v) :: rest else (k2, v2) :: tableSet rest k v

def tableLookup {τ : Type} : List (String × τ) → String → Option τ
  | [], _ => none
  | (k2, v) :: rest, k => if k2 = k then some v else tableLookup rest k

/-- `delete transports[transport.sessionId]` in the close listener of
app.get("/sse") (line 498): removes the entry with that key (a JavaScript
object holds at most one) and nothing else. -/
def tableDelete {τ : Type} : List (String × τ) → String → List (String × τ)
  | [], _ => []
  | (k2, v) :: rest, k =>
    if k2 = k then tableDelete rest k else (k2, v) :: tableDelete rest k

/-- The own property names of Object.prototype.  `transports` is a plain
object literal, so `transports[sessionId]` falls back to these inherited
properties when sessionId is not an own key; every one of them holds a
truthy value (a built-in function, and the __proto__ accessor yields
Object.prototype itself, an object). -/
def objectPrototypeKeys : List String :=
  ["constructor", "hasOwnProperty", "isPrototypeOf", "propertyIsEnumerable",
   "toLocaleString", "toString", "valueOf", "__proto__",
   "__defineGetter__", "__defineSetter__", "__lookupGetter__", "__lookupSetter__"]

/-- What the app.post("/messages") route does with a request, besides
writing the HTTP response: the matching transport handles the body
(dispatched); or sessionId names an inherited Object.prototype property,
the truthy branch is taken on that non-transport value, the
transport.handlePostMessage call throws a TypeError and the catch at lines
515-518 answers 500 (caught500); or the lookup is undefined and the route
answers 400 (rejected400). -/
inductive PostOutcome (τ : Type) where
  | dispatched : τ → PostOutcome τ
  | caught500 : PostOutcome τ
  | rejected400 : PostOutcome τ
deriving DecidableEq

/-- The app.post("/messages") route (src/cloud_arch.ts lines 508-523):
`transports[sessionId]` is own-key lookup with fallback to the properties
inherited from Object.prototype.  An own key hands the request to that
transport; an inherited property is truthy, so the dispatch branch is
taken, the handlePostMessage call on it throws, and the catch answers 500;
otherwise the value is undefined (falsy) and the route answers 400 without
creating a session.  No branch mutates the table, so the route returns the
outcome paired with the table it leaves behind. -/
def postMessages {τ : Type} (transports : List (String × τ)) (sessionId : String) :
    PostOutcome τ × List (String × τ) :=
  match tableLookup transports sessionId with
  | some transport => (.dispatched transport, transports)
  | none =>
    if objectPrototypeKeys.contains sessionId then (.caught500, transports)
    else (.rejected400, transports)

/-- The close listener registered on each SSE response (src/cloud_arch.ts
lines 496-499). -/
def onSessionClose {τ : Type} (transports : List (String × τ)) (sessionId : String) :
    List (String × τ) :=
  tableDelete transports sessionId

/-- `process.argv.includes("--sse")` (src/cloud_arch.ts line 467). -/
def useSSE (argv : List String) : Bool :=
  argv.contains "--sse"

/-- String.prototype.split("="): the pieces of the character list between
occurrences of the separator. -/
def splitEqChars : List Char → List (List Char)
  | [] => [[]]
  | c :: rest =>
    if c = '=' then [] :: splitEqChars rest
    else
      match splitEqChars rest with
      | [] => [[c]]
      | piece :: pieces => (c :: piece) :: pieces

/-- The value of `arg.split("=")[1]`, with the undefined result of an
out-of-range index collapsed to "" (both are falsy, which is all the `||`
in the source observes). -/
def splitEqSecond (arg : String) : String :=
  match splitEqChars arg.data with
  | _ :: second :: _ => String.mk second
  | _ => ""

/-- String.prototype.startsWith, over the character lists. -/
def strStartsWith (s pre : String) : Bool :=
  pre.data.isPrefixOf s.data

/-- Port selection (src/cloud_arch.ts line 468):
parseInt(argv.find(arg => arg.startsWith("--port="))?.split("=")[1] || "8000").
`none` is NaN.  parseInt takes the longest leading optionally-signed digit
run of its argument; its whitespace skipping and hex auto-detection are not
exercised by these arguments. -/
def parseIntJs (s : String) : Option Int :=
  match s.data with
  | '-' :: rest =>
    let lead := rest.takeWhile Char.isDigit
    if lead = [] then none else some (-(digitsVal lead : Int))
  | '+' :: rest =>
    let lead := rest.takeWhile Char.isDigit
    if lead = [] then none else some (digitsVal lead : Int)
  | cs =>
    let lead := cs.takeWhile Char.isDigit
    if lead = [] then none else some (digitsVal lead : Int)

def portOf (argv : List String) : Option Int :=
  let found := argv.find? (fun arg => strStartsWith arg "--port=")
  let raw := match found with
    | some arg => splitEqSecond arg
    | none => ""
  parseIntJs (if raw = "" then "8000" else raw)

namespace Advisor

/-!
The AzureArchitectureAdvisor class of src/unnamed/part_001.  Its instance
fields are gathered into `AdvisorState`; every method that mutates them is
modelled by explicit state passing.  Mutations performed before a throw
persist, so the stateful methods return the new state alongside the
`Except` result.
-/

/-- The object validateInquiryData returns (part_001 lines 63-86).  The four
checked fields carry their checked types; the optional fields are copied
as-is (the TypeScript casts have no runtime effect, so any JSON value can
sit in them). -/
structure InquiryData where
  question : String
  questionNumber : Int
  totalQuestions : Int
  nextQuestionNeeded : Bool
  answer : Option Json
  requirementCategory : Option Json
  isFollowUp : Option Json
  followsQuestionNumber : Option Json
  architectureSuggested : Option Json
  architectureComponent : Option Json
  detailLevel : Option Json
  domainSpecific : Option Json
  requirementIdentified : Option Json
  technicalConstraint : Option Json
  designPatternSuggested : Option Json
  serviceDetails : Option Json
  architectureTier : Option Json

/-- `!data.x || typeof data.x !== "string"` followed by the cast: a string
field is accepted exactly when it is a truthy (non-empty) string. -/
def checkString (v : Option Json) (msg : String) : Except String String :=
  match v with
  | some (Json.str s) => if s = "" then .error msg else .ok s
  | _ => .error msg

/-- `!data.x || typeof data.x !== "number"`: a number field is accepted
exactly when it is a truthy (non-zero) number. -/
def checkNumber (v : Option Json) (msg : String) : Except String Int :=
  match v with
  | some (Json.num n) => if n = 0 then .error msg else .ok n
  | _ => .error msg

/-- `typeof data.x !== "boolean"`: any boolean is accepted. -/
def checkBoolean (v : Option Json) (msg : String) : Except String Bool :=
  match v with
  | some (Json.bool b) => .ok b
  | _ => .error msg

/-- AzureArchitectureAdvisor.validateInquiryData (part_001 lines 47-87).
`!data.question` rejects missing, falsy (the empty string, zero) and, with
the typeof check, wrongly-typed values; the first property read throws when
the input itself is nullish.  The source reads each optional field in the
returned object literal after all four checks; reading them as each check
passes is observationally identical (the reads have no side effects and
cannot throw once the first read succeeded). -/
def validateInquiryData (input : Option Json) : Except String InquiryData := do
  let q ← getProp input "question"
  let question ← checkString q "Invalid question: must be a string"
  let qn ← getProp input "questionNumber"
  let questionNumber ← checkNumber qn "Invalid questionNumber: must be a number"
  let tq ← getProp input "totalQuestions"
  let totalQuestions ← checkNumber tq "Invalid totalQuestions: must be a number"
  let nq ← getProp input "nextQuestionNeeded"
  let nextQuestionNeeded ← checkBoolean nq "Invalid nextQuestionNeeded: must be a boolean"
  let answer ← getProp input "answer"
  let requirementCategory ← getProp input "requirementCategory"
  let isFollowUp ← getProp input "isFollowUp"
  let followsQuestionNumber ← getProp input "followsQuestionNumber"
  let architectureSuggested ← getProp input "architectureSuggested"
  let architectureComponent ← getProp input "architectureComponent"
  let detailLevel ← getProp input "detailLevel"
  let domainSpecific ← getProp input "domainSpecific"
  let requirementIdentified ← getProp input "requirementIdentified"
  let technicalConstraint ← getProp input "technicalConstraint"
  let designPatternSuggested ← getProp input "designPatternSuggested"
  let serviceDetails ← getProp input "serviceDetails"
  let architectureTier ← getProp input "architectureTier"
  pure { question, questionNumber, totalQuestions, nextQuestionNeeded, answer,
         requirementCategory, isFollowUp, followsQuestionNumber, architectureSuggested,
         architectureComponent, detailLevel, domainSpecific, requirementIdentified,
         technicalConstraint, designPatternSuggested, serviceDetails, architectureTier }

def isStringVal : Option Json → Bool
  | some (.str _) => true
  | _ => false

def isArrayVal : Option Json → Bool
  | some (.arr _) => true
  | _ => false

/-- JavaScript ToNumber on a possibly-undefined value (`none` is NaN). -/
def jsToNumber : Option Json → Option Int
  | none => none
  | some .null => some 0
  | some (.bool b) => some (if b then 1 else 0)
  | some (.num n) => some n
  | some (.str s) => jsNumberOfString s
  | some (.arr xs) => jsNumberOfString (jsToStringList xs)
  | some (.obj _) => none

/-- The JavaScript comparison `x > 0` (false when x is NaN). -/
def jsGreaterZero (o : Option Json) : Bool :=
  match jsToNumber o with
  | some n => 0 < n
  | none => false

/-- `.length` of a value already known non-nullish (never throws). -/
def lengthVal : Option Json → Option Json
  | some (.arr xs) => some (.num (xs.length : Nat))
  | some (.str s) => some (.num (s.length : Nat))
  | some (.obj fs) => lookupField fs "length"
  | _ => none

/-- AzureArchitectureAdvisor.formatInquiry (part_001 lines 89-186) renders a
console banner from the validated input; the string goes to console.error
and is unobservable, so only the sub-expressions that can throw are kept,
in source evaluation order: detailLevel.toUpperCase() on a truthy
non-string detailLevel (line 125), and
serviceDetails.alternatives.join(", ") on a truthy non-array alternatives
value whose length compares greater than zero (line 149).  Every other
expression of the method is template-string coercion, padding or Math.max
over strings, none of which can throw. -/
def formatInquiryCheck (v : InquiryData) : Except String Unit := do
  if truthy v.detailLevel && !(isStringVal v.detailLevel) then
    Except.error "detailLevel.toUpperCase is not a function"
  else
    let alternatives := optChainProp v.serviceDetails "alternatives"
    if truthy v.serviceDetails && truthy alternatives
        && jsGreaterZero (lengthVal alternatives) && !(isArrayVal alternatives) then
      Except.error "serviceDetails.alternatives.join is not a function"
    else
      pure ()

/-- The six Set fields of the serviceTiers record (part_001 lines 192-199).
A JavaScript Set keeps insertion order and SameValueZero uniqueness, which
structural equality on JSON values captures; each Set is a duplicate-free
list here. -/
structure ServiceTiers where
  infrastructure : List Json
  platform : List Json
  application : List Json
  data : List Json
  security : List Json
  operations : List Json

/-- Object.entries(this.serviceTiers): the six tier keys are not array
indices, so enumeration is in declaration order. -/
def tierEntries (t : ServiceTiers) : List (String × List Json) :=
  [("infrastructure", t.infrastructure), ("platform", t.platform),
   ("application", t.application), ("data", t.data),
   ("security", t.security), ("operations", t.operations)]

/-- Set.prototype.add. -/
def setAdd (s : List Json) (v : Json) : List Json :=
  if s.contains v then s else s ++ [v]

/-- `this.serviceTiers[validatedInput.architectureTier].add(component)`
(part_001 line 227): the computed key is the ToString of the tier value;
any key other than the six declared tiers reads undefined and the .add call
throws. -/
def serviceTierAdd (t : ServiceTiers) (key : String) (v : Json) : Except String ServiceTiers :=
  match key with
  | "infrastructure" => .ok { t with infrastructure := setAdd t.infrastructure v }
  | "platform" => .ok { t with platform := setAdd t.platform v }
  | "application" => .ok { t with application := setAdd t.application v }
  | "data" => .ok { t with data := setAdd t.data v }
  | "security" => .ok { t with security := setAdd t.security v }
  | "operations" => .ok { t with operations := setAdd t.operations v }
  | _ => .error "Cannot read properties of undefined (reading add)"

/-- The mutable instance fields of AzureArchitectureAdvisor (part_001 lines
44-45 and 188-199).  followUpQuestions is a plain object keyed by the
ToString of the follow-up number. -/
structure AdvisorState where
  questionHistory : List InquiryData
  followUpQuestions : List (String × List InquiryData)
  architectureComponents : List Json
  identifiedRequirements : List Json
  technicalConstraints : List Json
  designPatterns : List Json
  serviceTiers : ServiceTiers

def initialAdvisor : AdvisorState :=
  ⟨[], [], [], [], [], [], ⟨[], [], [], [], [], []⟩⟩

/-- Lines 232-237: create the bucket when the key is absent (an existing
bucket, even empty, is truthy), then push. -/
def addFollowUp : List (String × List InquiryData) → String → InquiryData →
    List (String × List InquiryData)
  | [], k, v => [(k, [v])]
  | (k2, xs) :: rest, k, v =>
    if k2 = k then (k2, xs ++ [v]) :: rest else (k2, xs) :: addFollowUp rest k v

/-- Math.round((k / n) * 100), written over naturals: exact for the tier
counts that occur (n = 6, k ≤ 6), where the double-precision evaluation of
the source agrees with the rational value rounded half-up. -/
def roundPct (k n : Nat) : Nat :=
  (k * 100 * 2 + n) / (n * 2)

/-- The object literal serialized at part_001 lines 266-284, built from the
advisor state after this call has been folded in and from the validated
(and totalQuestions-adjusted) input. -/
def advisorPayload (adv : AdvisorState) (v : InquiryData) : Json :=
  let entries := tierEntries adv.serviceTiers
  let emptyTiers := (entries.filter (fun p => p.2.length = 0)).map Prod.fst
  let nonEmpty := (entries.filter (fun p => p.2.length ≠ 0)).length
  let displayText := if truthy v.isFollowUp then v.question.trim else v.question
  Json.obj [
    ("display_text", .str displayText),
    ("questionNumber", .num v.questionNumber),
    ("totalQuestions", .num v.totalQuestions),
    ("nextQuestionNeeded", .bool v.nextQuestionNeeded),
    ("followUpQuestions", .arr ((jsKeyOrder (adv.followUpQuestions.map Prod.fst)).map (fun k =>
      match jsNumberOfString k with
      | some n => Json.num n
      | none => Json.null))),
    ("questionHistoryLength", .num (adv.questionHistory.length : Nat)),
    ("architectureStatus", Json.obj [
      ("componentsCount", .num (adv.architectureComponents.length : Nat)),
      ("requirementsCount", .num (adv.identifiedRequirements.length : Nat)),
      ("constraintsCount", .num (adv.technicalConstraints.length : Nat)),
      ("designPatternsCount", .num (adv.designPatterns.length : Nat)),
      ("completenessPercentage", .num (roundPct nonEmpty entries.length : Nat)),
      ("emptyTiers", .arr (emptyTiers.map Json.str)),
      ("tierComponentCounts", Json.obj (entries.map (fun p => (p.1, Json.num (p.2.length : Nat)))))])]

/-- The body of AzureArchitectureAdvisor.processInquiry (part_001 lines
201-286) up to the envelope wrapping: validation, the totalQuestions
adjustment, the Set updates, the serviceTiers update (which can throw on a
bad tier key), the questionHistory push, the follow-up bucket update, the
formatInquiry rendering (which can throw), and the response payload.
Mutations made before a throw persist on the returned state. -/
def processInquiryCore (adv : AdvisorState) (input : Option Json) :
    AdvisorState × Except String Json :=
  match validateInquiryData input with
  | .error e => (adv, .error e)
  | .ok v0 =>
    let v := if v0.totalQuestions < v0.questionNumber
      then { v0 with totalQuestions := v0.questionNumber } else v0
    let adv1 := { adv with
      architectureComponents :=
        if truthy v.architectureComponent
        then setAdd adv.architectureComponents (v.architectureComponent.getD .null)
        else adv.architectureComponents,
      identifiedRequirements :=
        if truthy v.requirementIdentified
        then setAdd adv.identifiedRequirements (v.requirementIdentified.getD .null)
        else adv.identifiedRequirements,
      technicalConstraints :=
        if truthy v.technicalConstraint
        then setAdd adv.technicalConstraints (v.technicalConstraint.getD .null)
        else adv.technicalConstraints,
      designPatterns :=
        if truthy v.designPatternSuggested
        then setAdd adv.designPatterns (v.designPatternSuggested.getD .null)
        else adv.designPatterns }
    let tierStep :=
      if truthy v.architectureTier && truthy v.architectureComponent then
        serviceTierAdd adv1.serviceTiers (jsToString (v.architectureTier.getD .null))
          (v.architectureComponent.getD .null)
      else .ok adv1.serviceTiers
    match tierStep with
    | .error e => (adv1, .error e)
    | .ok tiers =>
      let adv2 := { adv1 with serviceTiers := tiers }
      let adv3 := { adv2 with questionHistory := adv2.questionHistory ++ [v] }
      let adv4 :=
        if truthy v.isFollowUp && truthy v.followsQuestionNumber then
          { adv3 with followUpQuestions :=
            addFollowUp adv3.followUpQuestions (jsToString (v.followsQuestionNumber.getD .null)) v }
        else adv3
      match formatInquiryCheck v with
      | .error e => (adv4, .error e)
      | .ok _ => (adv4, .ok (advisorPayload adv4 v))

/-- AzureArchitectureAdvisor.processInquiry (part_001 lines 201-299): the
try/catch boundary that turns a normal completion into a text envelope and
any thrown failure into the structured error envelope. -/
def processInquiry (adv : AdvisorState) (input : Option Json) :
    AdvisorState × ResponseEnvelope :=
  match processInquiryCore adv input with
  | (adv2, .ok payload) =>
    (adv2, { content := [{ type := "text", text := payload.stringify }], isError := false })
  | (adv2, .error msg) => (adv2, errorEnvelope msg)

/-- The CallToolRequestSchema handler of src/unnamed/part_001 (lines
480-492): route the registered tool name to processInquiry, everything else
to the unknown-tool envelope. -/
def callToolHandler (adv : AdvisorState) (name : String) (args : Option Json) :
    AdvisorState × ResponseEnvelope :=
  if name = "design_azure_architecture" then processInquiry adv args
  else (adv, unknownToolEnvelope name)

end Advisor

/-! Helper lemmas. -/

theorem bind_ok {α β : Type} {x : Except String α} {f : α → Except String β} {b : β}
    (h : (x >>= f) = .ok b) : ∃ a, x = .ok a ∧ f a = .ok b := by
  cases x with
  | error e => simp [Bind.bind, Except.bind] at h
  | ok a => exact ⟨a, rfl, by simpa [Bind.bind, Except.bind] using h⟩

theorem getProp_ok {o : Option Json} {k : String} {x : Option Json}
    (h : getProp o k = .ok x) : x = jsLookup o k := by
  cases o with
  | none => simp [getProp] at h
  | some v =>
    cases v <;> simp [getProp, propOf, jsLookup, Json.lookup] at h ⊢ <;> exact h.symm

theorem lookupField_definedFields_none (fs : List (String × Option Json)) (k : String)
    (h : ∀ p ∈ fs, p.1 ≠ k) : lookupField (definedFields fs) k = none := by
  induction fs with
  | nil => rfl
  | cons p rest ih =>
    obtain ⟨k2, v⟩ := p
    have hk : k2 ≠ k := h (k2, v) (List.mem_cons_self _ _)
    have hrest : ∀ p ∈ rest, p.1 ≠ k := fun p hp => h p (List.mem_cons_of_mem _ hp)
    cases v with
    | none => simpa [definedFields] using ih hrest
    | some w => simpa [definedFields, lookupField, hk] using ih hrest

theorem lookupField_definedFields_append (pre : List (String × Option Json)) (k : String)
    (x : Option Json) (post : List (String × Option Json))
    (hpre : ∀ p ∈ pre, p.1 ≠ k) (hpost : ∀ p ∈ post, p.1 ≠ k) :
    lookupField (definedFields (pre ++ (k, x) :: post)) k = x := by
  induction pre with
  | nil =>
    cases x with
    | none => simpa [definedFields] using lookupField_definedFields_none post k hpost
    | some v => simp [definedFields, lookupField]
  | cons p rest ih =>
    obtain ⟨k2, v⟩ := p
    have hk : k2 ≠ k := hpre (k2, v) (List.mem_cons_self _ _)
    have hrest : ∀ p ∈ rest, p.1 ≠ k := fun p hp => hpre p (List.mem_cons_of_mem _ hp)
    cases v with
    | none => simpa [definedFields] using ih hrest
    | some w => simpa [definedFields, lookupField, hk] using ih hrest

theorem mkPayload_lookups (d qn tq nqn : Option Json) (fuq : List String)
    (qhl ac rc cc dpc : Option Json) (cp et tcc : Option Json) (st : Option Json) :
    (CloudArch.mkPayload d qn tq nqn fuq qhl ac rc cc dpc cp et tcc st).lookup "state" = st ∧
    (CloudArch.mkPayload d qn tq nqn fuq qhl ac rc cc dpc cp et tcc st).lookup "questionNumber" = qn ∧
    (CloudArch.mkPayload d qn tq nqn fuq qhl ac rc cc dpc cp et tcc st).lookup "totalQuestions" = tq ∧
    (CloudArch.mkPayload d qn tq nqn fuq qhl ac rc cc dpc cp et tcc st).lookup "nextQuestionNeeded" = nqn ∧
    (CloudArch.mkPayload d qn tq nqn fuq qhl ac rc cc dpc cp et tcc st).lookup "display_text" = d ∧
    (CloudArch.mkPayload d qn tq nqn fuq qhl ac rc cc dpc cp et tcc st).lookup "answer" = none := by
  rcases d with _ | dv <;> rcases qn with _ | qnv <;> rcases tq with _ | tqv <;>
    rcases nqn with _ | nqnv <;> rcases qhl with _ | qhlv <;> rcases st with _ | stv <;>
    simp [CloudArch.mkPayload, jsObject, definedFields, Json.lookup, lookupField]

theorem payloadTail_ok (q qn tq nqn st : Option Json) (payload : Json)
    (h : CloudArch.payloadTail q qn tq nqn st = .ok payload) :
    payload.lookup "state" = st ∧ payload.lookup "questionNumber" = qn ∧
    payload.lookup "totalQuestions" = tq ∧ payload.lookup "nextQuestionNeeded" = nqn ∧
    payload.lookup "answer" = none := by
  simp only [CloudArch.payloadTail] at h
  obtain ⟨display, hd, h⟩ := bind_ok h
  obtain ⟨fuo, hf, h⟩ := bind_ok h
  obtain ⟨fuk, hk, h⟩ := bind_ok h
  obtain ⟨qh, hqh, h⟩ := bind_ok h
  obtain ⟨qhl, hqhl, h⟩ := bind_ok h
  obtain ⟨acv, hac, h⟩ := bind_ok h
  obtain ⟨accnt, haccnt, h⟩ := bind_ok h
  obtain ⟨irv, hir, h⟩ := bind_ok h
  obtain ⟨ircnt, hircnt, h⟩ := bind_ok h
  obtain ⟨tcv, htc, h⟩ := bind_ok h
  obtain ⟨tccnt, htccnt, h⟩ := bind_ok h
  obtain ⟨dpv, hdp, h⟩ := bind_ok h
  obtain ⟨dpcnt, hdpcnt, h⟩ := bind_ok h
  obtain ⟨cm, hcm, h⟩ := bind_ok h
  have hp : CloudArch.mkPayload (jsOr (optChainProp display "displayText") q) qn tq nqn fuk qhl
      accnt ircnt tccnt dpcnt
      (jsOr (optChainProp cm "completenessPercentage") (some (.num 0)))
      (jsOr (optChainProp cm "emptyTiers") (some (.arr [])))
      (jsOr (optChainProp cm "tierComponentCounts") (some (.obj []))) st = payload := by
    simpa [Pure.pure, Except.pure] using h
  rw [← hp]
  have hm := mkPayload_lookups (jsOr (optChainProp display "displayText") q) qn tq nqn fuk qhl
    accnt ircnt tccnt dpcnt
    (jsOr (optChainProp cm "completenessPercentage") (some (.num 0)))
    (jsOr (optChainProp cm "emptyTiers") (some (.arr [])))
    (jsOr (optChainProp cm "tierComponentCounts") (some (.obj []))) st
  exact ⟨hm.1, hm.2.1, hm.2.2.1, hm.2.2.2.1, hm.2.2.2.2.2⟩

theorem handlerBody_obj (fields : List (String × Json)) :
    CloudArch.handlerBody (some (.obj fields)) =
    CloudArch.payloadTail (lookupField fields "question") (lookupField fields "questionNumber")
      (lookupField fields "totalQuestions") (lookupField fields "nextQuestionNeeded")
      (lookupField fields "state") := rfl

/-! Claim theorems for the src/cloud_arch.ts dispatcher. -/

/-- C1: for every request naming the registered tool
design_azure_architecture whose arguments include a `state` value and whose
handler body completes normally, the envelope returned by the dispatcher
embeds (as JSON text) a payload whose `state` property is the very value
submitted - structurally identical, no field added, removed or modified. -/
theorem cloud_state_roundtrip (fields : List (String × Json)) (st : Json) (payload : Json)
    (hstate : lookupField fields "state" = some st)
    (hok : CloudArch.handlerBody (some (.obj fields)) = .ok payload) :
    CloudArch.callToolHandler "design_azure_architecture" (some (.obj fields)) =
      { content := [{ type := "text", text := payload.stringify }], isError := false } ∧
    payload.lookup "state" = some st := by
  constructor
  · simp [CloudArch.callToolHandler, hok]
  · have h := handlerBody_obj fields
    rw [h, hstate] at hok
    exact (payloadTail_ok _ _ _ _ _ _ hok).1

def c1state : Json := Json.obj [
  ("questionHistory", .arr [.obj [("question", .str "Q0"), ("questionNumber", .num 1)]]),
  ("followUpQuestions", .obj [("2", .arr [])]),
  ("architectureComponents", .arr [.str "Azure App Service"]),
  ("identifiedRequirements", .arr [.str "scale"]),
  ("technicalConstraints", .arr []),
  ("designPatterns", .arr []),
  ("serviceTiers", .obj [("infrastructure", .arr []), ("platform", .arr [.str "Azure App Service"]),
    ("application", .arr []), ("data", .arr []), ("security", .arr []), ("operations", .arr [])]),
  ("calculatedMetrics", .obj [("emptyTiers", .arr [.str "data"]), ("completenessPercentage", .num 17),
    ("tierComponentCounts", .obj [("platform", .num 1)])]),
  ("display", .obj [("displayText", .str "What next?")])]

def c1fields : List (String × Json) := [
  ("question", .str "What next?"),
  ("questionNumber", .num 2),
  ("totalQuestions", .num 8),
  ("nextQuestionNeeded", .bool true),
  ("state", c1state)]

def c1payload : Json :=
  match CloudArch.handlerBody (some (.obj c1fields)) with
  | .ok p => p
  | .error _ => .null

/-- Witness for C1 at a concrete request carrying a fully-populated state. -/
theorem cloud_state_roundtrip_witness :
    CloudArch.callToolHandler "design_azure_architecture" (some (.obj c1fields)) =
      { content := [{ type := "text", text := c1payload.stringify }], isError := false } ∧
    c1payload.lookup "state" = some c1state :=
  cloud_state_roundtrip c1fields c1state c1payload rfl rfl

/-- C2: every request whose tool name is not design_azure_architecture gets
exactly the unknown-tool envelope with the submitted name interpolated and
isError true; the branch is a total function, so it never raises.  Equality
of the text with "Unknown tool: " followed by the name entails the
containment stated for the "nonexistent_tool" instance (see the witness). -/
theorem unknown_tool_rejected (name : String) (args : Option Json)
    (h : name ≠ "design_azure_architecture") :
    CloudArch.callToolHandler name args =
      { content := [{ type := "text", text := "Unknown tool: " ++ name }], isError := true } := by
  simp [CloudArch.callToolHandler, h, unknownToolEnvelope]

/-- Witness for C2: dispatching "nonexistent_tool" with empty arguments. -/
theorem unknown_tool_rejected_witness :
    CloudArch.callToolHandler "nonexistent_tool" (some (.obj [])) =
      { content := [{ type := "text", text := "Unknown tool: nonexistent_tool" }], isError := true } :=
  unknown_tool_rejected "nonexistent_tool" (some (.obj [])) (by decide)

/-- C3: whenever the try-block of the registered tool raises, the dispatcher
catch converts the failure into the envelope whose text is the JSON-encoded
error/status object and whose isError is true.  The dispatcher is a total
function of the request, so no failure propagates past it to the transport
layer. -/
theorem handler_failure_caught (args : Option Json) (msg : String)
    (h : CloudArch.handlerBody args = .error msg) :
    CloudArch.callToolHandler "design_azure_architecture" args = errorEnvelope msg := by
  simp [CloudArch.callToolHandler, h]

/-- Witness for C3: a request with no arguments object makes the handler body
throw at its first property read, and the dispatcher converts it. -/
theorem handler_failure_caught_witness :
    CloudArch.callToolHandler "design_azure_architecture" none =
      errorEnvelope "Cannot read properties of undefined (reading question)" :=
  handler_failure_caught none _ rfl

def c8fields : List (String × Json) := [
  ("question", .str "Which region?"),
  ("questionNumber", .num 3),
  ("totalQuestions", .num 8),
  ("nextQuestionNeeded", .bool true),
  ("answer", .str "West Europe"),
  ("requirementCategory", .str "performance"),
  ("state", .obj [("questionHistory", .arr []), ("followUpQuestions", .obj []),
    ("architectureComponents", .arr []), ("identifiedRequirements", .arr []),
    ("technicalConstraints", .arr []), ("designPatterns", .arr [])])]

/-- C8 counterexample: the handler completes normally on a request carrying
answer = "West Europe", yet the returned payload has no answer property at
all, so the handler does not copy every recognized input field into the
output envelope payload. -/
theorem cloud_not_full_passthrough :
    (CloudArch.handlerBody (some (.obj c8fields))).map (fun p => p.lookup "answer") = .ok none ∧
    lookupField c8fields "answer" = some (.str "West Europe") := ⟨rfl, rfl⟩

/-- C8 (amended): the handler is a pass-through only for questionNumber,
totalQuestions, nextQuestionNeeded and the opaque `state` sub-object, which
it returns completely unchanged; the remaining recognized input fields
(answer, requirementCategory, and so on) are not copied into the payload -
in particular no answer property ever appears. -/
theorem cloud_passthrough_amended (fields : List (String × Json)) (payload : Json)
    (hok : CloudArch.handlerBody (some (.obj fields)) = .ok payload) :
    payload.lookup "questionNumber" = lookupField fields "questionNumber" ∧
    payload.lookup "totalQuestions" = lookupField fields "totalQuestions" ∧
    payload.lookup "nextQuestionNeeded" = lookupField fields "nextQuestionNeeded" ∧
    payload.lookup "state" = lookupField fields "state" ∧
    payload.lookup "answer" = none := by
  rw [handlerBody_obj fields] at hok
  have h := payloadTail_ok _ _ _ _ _ _ hok
  exact ⟨h.2.1, h.2.2.1, h.2.2.2.1, h.1, h.2.2.2.2⟩

def c8payload : Json :=
  match CloudArch.handlerBody (some (.obj c8fields)) with
  | .ok p => p
  | .error _ => .null

/-- Witness for the amended C8 at the concrete request above. -/
theorem cloud_passthrough_amended_witness :
    c8payload.lookup "questionNumber" = some (.num 3) ∧
    c8payload.lookup "state" = lookupField c8fields "state" ∧
    c8payload.lookup "answer" = none := by
  have h := cloud_passthrough_amended c8fields c8payload rfl
  exact ⟨by rw [h.1]; rfl, h.2.2.2.1, h.2.2.2.2⟩

/-! Claim C4: the spec scenario with state = \x7b\x7d. -/

def c4args : Json := Json.obj [
  ("question", .str "What is your primary workload?"),
  ("questionNumber", .num 1),
  ("totalQuestions", .num 8),
  ("nextQuestionNeeded", .bool true),
  ("state", .obj [])]

/-- C4 counterexample: on the src/cloud_arch.ts dispatcher the scenario
request with an empty state object does NOT return a non-error envelope:
Object.keys(state.followUpQuestions) throws on the absent property and the
catch produces isError true. -/
theorem c4_cloud_scenario_errors :
    CloudArch.callToolHandler "design_azure_architecture" (some c4args) =
      errorEnvelope "Cannot convert undefined or null to object" ∧
    (CloudArch.callToolHandler "design_azure_architecture" (some c4args)).isError = true :=
  ⟨rfl, rfl⟩

def c4payload000 : Json :=
  match Variant000.handlerBody (some c4args) with
  | .ok p => p
  | .error _ => .null

/-- C4 (amended): the scenario holds on the src/unnamed/part_000 variant of
the tool, whose handler reads no property of the submitted state other than
thought and suggestedHint: there the invocation returns a non-error envelope
whose embedded payload has display_text equal to the submitted question,
questionNumber 1, and state equal to the empty object unchanged.  On the
src/cloud_arch.ts variant the same invocation yields isError true (see the
counterexample). -/
theorem c4_variant000_scenario :
    Variant000.handlerBody (some c4args) = .ok c4payload000 ∧
    c4payload000.lookup "display_text" = some (.str "What is your primary workload?") ∧
    c4payload000.lookup "questionNumber" = some (.num 1) ∧
    c4payload000.lookup "state" = some (.obj []) ∧
    Variant000.callToolHandler "design_azure_architecture" (some c4args) =
      { content := [{ type := "text", text := c4payload000.stringify }], isError := false } :=
  ⟨rfl, rfl, rfl, rfl, rfl⟩

/-! Claims C5 and C6: the SSE session table. -/

theorem tableLookup_tableDelete_self {τ : Type} (t : List (String × τ)) (k : String) :
    tableLookup (tableDelete t k) k = none := by
  induction t with
  | nil => rfl
  | cons p rest ih =>
    by_cases hp : p.1 = k
    · simpa [tableDelete, hp] using ih
    · simpa [tableDelete, tableLookup, hp] using ih

theorem tableLookup_tableDelete_other {τ : Type} (t : List (String × τ)) (k s2 : String)
    (h : s2 ≠ k) : tableLookup (tableDelete t k) s2 = tableLookup t s2 := by
  induction t with
  | nil => rfl
  | cons p rest ih =>
    obtain ⟨k2, v⟩ := p
    have hk : ¬ (k = s2) := fun hc => h hc.symm
    by_cases hp : k2 = k
    · simpa [tableDelete, tableLookup, hp, hk] using ih
    · by_cases hps : k2 = s2
      · simp [tableDelete, tableLookup, hp, hps, h]
      · simpa [tableDelete, tableLookup, hp, hps] using ih

/-- C5 counterexample: "toString" is not a key of the one-session table,
yet `transports["toString"]` yields the truthy inherited
Object.prototype.toString, the dispatch branch is taken, the
handlePostMessage call on it throws, and the catch answers 500 - not the
claimed 400. -/
theorem c5_prototype_id_answers_500 :
    tableLookup [("a1b2", 0)] "toString" = none ∧
    postMessages [("a1b2", 0)] "toString" = (.caught500, [("a1b2", 0)]) := ⟨rfl, rfl⟩

/-- C5 (amended): a POST to /messages whose sessionId is neither a key of
the transports table nor one of the property names a plain object inherits
from Object.prototype is answered with the 400 rejection; an absent id
that does name an inherited Object.prototype property takes the dispatch
branch on that non-transport value, whose handlePostMessage call throws,
and the route answers 500.  In either case no transport receives the body
and the table is left exactly as it was (the route performs no table
mutation at all). -/
theorem post_unknown_session_rejected {τ : Type} (transports : List (String × τ))
    (sessionId : String) (h : tableLookup transports sessionId = none) :
    (objectPrototypeKeys.contains sessionId = false →
      postMessages transports sessionId = (.rejected400, transports)) ∧
    (objectPrototypeKeys.contains sessionId = true →
      postMessages transports sessionId = (.caught500, transports)) ∧
    (postMessages transports sessionId).2 = transports := by
  have hiff : objectPrototypeKeys.contains sessionId = true ↔ sessionId ∈ objectPrototypeKeys := by
    simp
  refine ⟨fun hp => ?_, fun hp => ?_, ?_⟩
  · have hm : sessionId ∉ objectPrototypeKeys := fun hc => by
      simp [hiff.mpr hc] at hp
      exact hp hc
    simp [postMessages, h, hm]
  · simp [postMessages, h, hiff.mp hp]
  · by_cases hm : sessionId ∈ objectPrototypeKeys <;> simp [postMessages, h, hm]

/-- Witness for the amended C5 at the two-session table of the spec
scenario: the id "zzzz" gets the 400 rejection, the id "toString" gets the
500 conversion, and both leave the table unchanged. -/
theorem post_unknown_session_rejected_witness :
    postMessages [("a1b2", 0), ("c3d4", 1)] "zzzz" =
      (.rejected400, [("a1b2", 0), ("c3d4", 1)]) ∧
    postMessages [("a1b2", 0), ("c3d4", 1)] "toString" =
      (.caught500, [("a1b2", 0), ("c3d4", 1)]) :=
  ⟨(post_unknown_session_rejected [("a1b2", 0), ("c3d4", 1)] "zzzz" rfl).1 rfl,
   (post_unknown_session_rejected [("a1b2", 0), ("c3d4", 1)] "toString" rfl).2.1 rfl⟩

/-- C6: when the connection of a session in the table closes, the close
listener removes exactly that entry: afterwards its id resolves to nothing,
and every other id resolves to exactly the transport (output sink) it had
before. -/
theorem close_removes_exactly {τ : Type} (transports : List (String × τ)) (sessionId : String)
    (tr : τ) (_hmem : tableLookup transports sessionId = some tr) :
    tableLookup (onSessionClose transports sessionId) sessionId = none ∧
    ∀ s2, s2 ≠ sessionId →
      tableLookup (onSessionClose transports sessionId) s2 = tableLookup transports s2 :=
  ⟨tableLookup_tableDelete_self transports sessionId,
   fun s2 hs2 => tableLookup_tableDelete_other transports sessionId s2 hs2⟩

/-- Witness for C6: closing session a1b2 in the two-session table. -/
theorem close_removes_exactly_witness :
    tableLookup (onSessionClose [("a1b2", 0), ("c3d4", 1)] "a1b2") "a1b2" = none ∧
    tableLookup (onSessionClose [("a1b2", 0), ("c3d4", 1)] "a1b2") "c3d4" = some 1 := by
  have h := close_removes_exactly [("a1b2", 0), ("c3d4", 1)] "a1b2" 0 rfl
  exact ⟨h.1, by rw [h.2 "c3d4" (by decide)]; rfl⟩

/-! Claims C7 and C10: the part_001 advisor. -/

theorem checkString_ok {v : Option Json} {msg a : String}
    (h : Advisor.checkString v msg = .ok a) : v = some (.str a) ∧ a ≠ "" := by
  match v with
  | none => simp [Advisor.checkString] at h
  | some .null => simp [Advisor.checkString] at h
  | some (.bool b) => simp [Advisor.checkString] at h
  | some (.num n) => simp [Advisor.checkString] at h
  | some (.arr xs) => simp [Advisor.checkString] at h
  | some (.obj fs) => simp [Advisor.checkString] at h
  | some (.str s) =>
    by_cases hs : s = ""
    · simp [Advisor.checkString, hs] at h
    · simp only [Advisor.checkString, if_neg hs, Except.ok.injEq] at h
      subst h
      exact ⟨rfl, hs⟩

theorem checkNumber_ok {v : Option Json} {msg : String} {a : Int}
    (h : Advisor.checkNumber v msg = .ok a) : v = some (.num a) ∧ a ≠ 0 := by
  match v with
  | none => simp [Advisor.checkNumber] at h
  | some .null => simp [Advisor.checkNumber] at h
  | some (.bool b) => simp [Advisor.checkNumber] at h
  | some (.str s) => simp [Advisor.checkNumber] at h
  | some (.arr xs) => simp [Advisor.checkNumber] at h
  | some (.obj fs) => simp [Advisor.checkNumber] at h
  | some (.num n) =>
    by_cases hn : n = 0
    · simp [Advisor.checkNumber, hn] at h
    · simp only [Advisor.checkNumber, if_neg hn, Except.ok.injEq] at h
      subst h
      exact ⟨rfl, hn⟩

theorem checkBoolean_ok {v : Option Json} {msg : String} {a : Bool}
    (h : Advisor.checkBoolean v msg = .ok a) : v = some (.bool a) := by
  match v with
  | none => simp [Advisor.checkBoolean] at h
  | some .null => simp [Advisor.checkBoolean] at h
  | some (.num n) => simp [Advisor.checkBoolean] at h
  | some (.str s) => simp [Advisor.checkBoolean] at h
  | some (.arr xs) => simp [Advisor.checkBoolean] at h
  | some (.obj fs) => simp [Advisor.checkBoolean] at h
  | some (.bool b) =>
    simp only [Advisor.checkBoolean, Except.ok.injEq] at h
    subst h
    rfl

theorem validate_ok_spec (args : Option Json) (v : Advisor.InquiryData)
    (h : Advisor.validateInquiryData args = .ok v) :
    jsLookup args "question" = some (.str v.question) ∧ v.question ≠ "" ∧
    jsLookup args "questionNumber" = some (.num v.questionNumber) ∧ v.questionNumber ≠ 0 ∧
    jsLookup args "totalQuestions" = some (.num v.totalQuestions) ∧ v.totalQuestions ≠ 0 ∧
    jsLookup args "nextQuestionNeeded" = some (.bool v.nextQuestionNeeded) := by
  simp only [Advisor.validateInquiryData] at h
  obtain ⟨q, hq, h⟩ := bind_ok h
  obtain ⟨question, hques, h⟩ := bind_ok h
  obtain ⟨qn, hqn, h⟩ := bind_ok h
  obtain ⟨questionNumber, hqnum, h⟩ := bind_ok h
  obtain ⟨tq, htq, h⟩ := bind_ok h
  obtain ⟨totalQuestions, htnum, h⟩ := bind_ok h
  obtain ⟨nq, hnq, h⟩ := bind_ok h
  obtain ⟨nextQuestionNeeded, hnb, h⟩ := bind_ok h
  obtain ⟨answer, _, h⟩ := bind_ok h
  obtain ⟨requirementCategory, _, h⟩ := bind_ok h
  obtain ⟨isFollowUp, _, h⟩ := bind_ok h
  obtain ⟨followsQuestionNumber, _, h⟩ := bind_ok h
  obtain ⟨architectureSuggested, _, h⟩ := bind_ok h
  obtain ⟨architectureComponent, _, h⟩ := bind_ok h
  obtain ⟨detailLevel, _, h⟩ := bind_ok h
  obtain ⟨domainSpecific, _, h⟩ := bind_ok h
  obtain ⟨requirementIdentified, _, h⟩ := bind_ok h
  obtain ⟨technicalConstraint, _, h⟩ := bind_ok h
  obtain ⟨designPatternSuggested, _, h⟩ := bind_ok h
  obtain ⟨serviceDetails, _, h⟩ := bind_ok h
  obtain ⟨architectureTier, _, h⟩ := bind_ok h
  have hv : v =
      { question := question, questionNumber := questionNumber,
        totalQuestions := totalQuestions, nextQuestionNeeded := nextQuestionNeeded,
        answer := answer, requirementCategory := requirementCategory, isFollowUp := isFollowUp,
        followsQuestionNumber := followsQuestionNumber,
        architectureSuggested := architectureSuggested,
        architectureComponent := architectureComponent, detailLevel := detailLevel,
        domainSpecific := domainSpecific, requirementIdentified := requirementIdentified,
        technicalConstraint := technicalConstraint,
        designPatternSuggested := designPatternSuggested, serviceDetails := serviceDetails,
        architectureTier := architectureTier } := by
    simpa [Pure.pure, Except.pure] using h.symm
  obtain ⟨hq1, hq2⟩ := checkString_ok hques
  obtain ⟨hn1, hn2⟩ := checkNumber_ok hqnum
  obtain ⟨ht1, ht2⟩ := checkNumber_ok htnum
  have hb1 := checkBoolean_ok hnb
  subst hv
  refine ⟨?_, hq2, ?_, hn2, ?_, ht2, ?_⟩
  · rw [← getProp_ok hq, hq1]
  · rw [← getProp_ok hqn, hn1]
  · rw [← getProp_ok htq, ht1]
  · rw [← getProp_ok hnq, hb1]

def isNumVal : Option Json → Bool
  | some (.num _) => true
  | _ => false

def isBoolVal : Option Json → Bool
  | some (.bool _) => true
  | _ => false

/-- A required request field (question, questionNumber, totalQuestions or
nextQuestionNeeded) is missing or of the wrong shape. -/
def requiredFieldBad (args : Option Json) : Bool :=
  !(Advisor.isStringVal (jsLookup args "question")) ||
  !(isNumVal (jsLookup args "questionNumber")) ||
  !(isNumVal (jsLookup args "totalQuestions")) ||
  !(isBoolVal (jsLookup args "nextQuestionNeeded"))

/-- C7: every request to the registered tool in which a required field is
missing or of the wrong shape is answered with an isError envelope produced
locally by the catch around processInquiry - nothing is raised further -
and the advisor state is left exactly as it was, so the session stays
usable for subsequent requests. -/
theorem validation_failure_recovered (adv : Advisor.AdvisorState) (args : Option Json)
    (h : requiredFieldBad args = true) :
    (Advisor.callToolHandler adv "design_azure_architecture" args).1 = adv ∧
    (Advisor.callToolHandler adv "design_azure_architecture" args).2.isError = true := by
  cases hv : Advisor.validateInquiryData args with
  | ok v =>
    exfalso
    obtain ⟨h1, _, h3, _, h5, _, h7⟩ := validate_ok_spec args v hv
    simp [requiredFieldBad, h1, h3, h5, h7, Advisor.isStringVal, isNumVal, isBoolVal] at h
  | error e =>
    constructor <;>
      simp [Advisor.callToolHandler, Advisor.processInquiry, Advisor.processInquiryCore, hv,
        errorEnvelope]

def c7args : Json := Json.obj [
  ("question", .str "What is your main constraint?"),
  ("questionNumber", .str "one"),
  ("totalQuestions", .num 8),
  ("nextQuestionNeeded", .bool true)]

/-- Witness for C7: questionNumber of the wrong shape (a string). -/
theorem validation_failure_recovered_witness :
    requiredFieldBad (some c7args) = true ∧
    (Advisor.callToolHandler Advisor.initialAdvisor "design_azure_architecture"
      (some c7args)).1 = Advisor.initialAdvisor ∧
    (Advisor.callToolHandler Advisor.initialAdvisor "design_azure_architecture"
      (some c7args)).2.isError = true := by
  have h := validation_failure_recovered Advisor.initialAdvisor (some c7args) rfl
  exact ⟨rfl, h.1, h.2⟩

/-- C10: on the server-accumulating variant, a valid inquiry whose handler
completes normally gets back a payload whose totalQuestions equals the
submitted questionNumber when that exceeds the submitted totalQuestions and
the submitted totalQuestions otherwise; the returned questionNumber is the
submitted one, so the returned totalQuestions is always at least the
returned questionNumber. -/
theorem advisor_totalQuestions_adjusted (adv : Advisor.AdvisorState) (args : Option Json)
    (payload : Json) (qn tq : Int)
    (hok : (Advisor.processInquiryCore adv args).2 = .ok payload)
    (hqn : jsLookup args "questionNumber" = some (.num qn))
    (htq : jsLookup args "totalQuestions" = some (.num tq)) :
    payload.lookup "totalQuestions" = some (.num (if tq < qn then qn else tq)) ∧
    payload.lookup "questionNumber" = some (.num qn) ∧
    qn ≤ (if tq < qn then qn else tq) := by
  cases hv : Advisor.validateInquiryData args with
  | error e => simp [Advisor.processInquiryCore, hv] at hok
  | ok v0 =>
    obtain ⟨_, _, hn1, _, ht1, _, _⟩ := validate_ok_spec args v0 hv
    rw [hqn] at hn1
    rw [htq] at ht1
    have hqe : v0.questionNumber = qn := by
      cases hn1; rfl
    have hte : v0.totalQuestions = tq := by
      cases ht1; rfl
    simp only [Advisor.processInquiryCore, hv] at hok
    split at hok
    · simp at hok
    · split at hok
      · simp at hok
      · simp only [Except.ok.injEq] at hok
        subst hok
        rw [← hqe, ← hte]
        by_cases hlt : v0.totalQuestions < v0.questionNumber <;>
          simp [Advisor.advisorPayload, Json.lookup, lookupField, hlt, le_of_not_lt]

def c10args : Json := Json.obj [
  ("question", .str "How many regions do you need?"),
  ("questionNumber", .num 5),
  ("totalQuestions", .num 3),
  ("nextQuestionNeeded", .bool true)]

def c10payload : Json :=
  match (Advisor.processInquiryCore Advisor.initialAdvisor (some c10args)).2 with
  | .ok p => p
  | .error _ => .null

/-- Witness for C10: questionNumber 5 against totalQuestions 3 comes back
with totalQuestions 5. -/
theorem advisor_totalQuestions_adjusted_witness :
    c10payload.lookup "totalQuestions" = some (.num 5) ∧
    c10payload.lookup "questionNumber" = some (.num 5) := by
  have h := advisor_totalQuestions_adjusted Advisor.initialAdvisor (some c10args)
    c10payload 5 3 rfl rfl rfl
  refine ⟨?_, h.2.1⟩
  rw [h.1]
  norm_num

/-! Claim C9: startup configuration. -/

theorem splitEqChars_no_sep (cs : List Char) (h : '=' ∉ cs) : splitEqChars cs = [cs] := by
  induction cs with
  | nil => rfl
  | cons c rest ih =>
    have hc : ¬ (c = '=') := fun hc => h (hc ▸ List.mem_cons_self c rest)
    have hrest : '=' ∉ rest := fun hr => h (List.mem_cons_of_mem _ hr)
    simp [splitEqChars, hc, ih hrest]

theorem splitEqChars_port_prefix (ds : List Char) (h : '=' ∉ ds) :
    splitEqChars ("--port=".data ++ ds) = ["--port".data, ds] := by
  have hds := splitEqChars_no_sep ds h
  show splitEqChars ('-' :: '-' :: 'p' :: 'o' :: 'r' :: 't' :: '=' :: ds) = _
  simp [splitEqChars, hds]

theorem parseIntJs_digits (ds : List Char) (hne : ds ≠ []) (hdig : ∀ c ∈ ds, c.isDigit) :
    parseIntJs (String.mk ds) = some (digitsVal ds) := by
  match ds, hne with
  | c :: rest, _ =>
    have hc := hdig c (List.mem_cons_self c rest)
    have htake : (c :: rest).takeWhile Char.isDigit = c :: rest :=
      List.takeWhile_eq_self_iff.mpr hdig
    unfold parseIntJs
    split
    · next heq =>
      have : c = '-' := ((List.cons.injEq ..).mp heq).1
      rw [this] at hc
      exact absurd hc (by decide)
    · next heq =>
      have : c = '+' := ((List.cons.injEq ..).mp heq).1
      rw [this] at hc
      exact absurd hc (by decide)
    · simp [htake]

/-- C9: startup selects the SSE transport exactly when the boolean --sse
flag is present in the argument list; with no --port=<n> argument the
network transport listens on port 8000, and with --port=<n> carrying a
numeric value the port is the decimal value of its digits. -/
theorem startup_transport_and_port (argv : List String) :
    (useSSE argv = true ↔ "--sse" ∈ argv) ∧
    (argv.find? (fun arg => strStartsWith arg "--port=") = none → portOf argv = some 8000) ∧
    (∀ ds : List Char, ds ≠ [] → (∀ c ∈ ds, c.isDigit) →
      argv.find? (fun arg => strStartsWith arg "--port=") = some ("--port=" ++ String.mk ds) →
      portOf argv = some (digitsVal ds)) := by
  refine ⟨?_, ?_, ?_⟩
  · simp [useSSE]
  · intro h
    simp only [portOf, h]
    rfl
  · intro ds hne hdig hfind
    have hsep : '=' ∉ ds := fun hm => absurd (hdig '=' hm) (by decide)
    have hdata : ("--port=" ++ String.mk ds).data = "--port=".data ++ ds := by
      rw [String.data_append]
    have hsplit : splitEqSecond ("--port=" ++ String.mk ds) = String.mk ds := by
      simp only [splitEqSecond, hdata, splitEqChars_port_prefix ds hsep]
    have hraw : ¬ (String.mk ds = "") := by
      intro hc
      exact hne (by simpa [String.ext_iff] using hc)
    simp only [portOf, hfind, hsplit, if_neg hraw]
    exact parseIntJs_digits ds hne hdig

/-- Witness for C9 at the concrete argument lists of the two startup modes:
the flag selects SSE, --port=8015 yields port 8015, and omitting --port
yields port 8000. -/
theorem startup_transport_and_port_witness :
    useSSE ["--sse", "--port=8015"] = true ∧
    portOf ["--sse", "--port=8015"] = some 8015 ∧
    portOf ["--sse"] = some 8000 := by
  refine ⟨?_, ?_, ?_⟩
  · exact (startup_transport_and_port ["--sse", "--port=8015"]).1.mpr (by simp)
  · have h := (startup_transport_and_port ["--sse", "--port=8015"]).2.2
      ['8', '0', '1', '5'] (by decide) (by decide) (by decide)
    simpa using h
  · exact (startup_transport_and_port ["--sse"]).2.1 rfl
